import Mathlib

/-!
# Epic Events CRM — verification of the authentication/authorization core

Shallow embedding of the Python sources under `epicevents/` (permissions.py,
utils.py, controllers/auth_controller.py, controllers/contract_controller.py,
controllers/event_controller.py) and proofs of the specified properties.

Database rows become Lean structures, SQLAlchemy queries become list lookups,
Python exceptions become `Except` errors carrying the exception's message, and
the persisted token file becomes an explicit state value threaded through the
functions.  The external libraries `bcrypt` and `pyjwt` are modelled by
idealized executable functions whose observable behaviour (success / failure
classification, carried claims, exception on malformed input) matches the
libraries' documented behaviour; cryptographic collision-freeness is idealized
as exact matching.
-/

namespace EpicEvents

/-- `RoleEnum` from models.py: the closed role enumeration. -/
inductive RoleEnum where
  | MANAGEMENT
  | SALES
  | SUPPORT
deriving DecidableEq, Repr

/-- The `.value` string of each role (models.py). -/
def RoleEnum.value : RoleEnum → String
  | .MANAGEMENT => "management"
  | .SALES => "sales"
  | .SUPPORT => "support"

/-- `User` row: fields as used by the controllers (id, employee_number,
full_name, email, password_hash, role, is_active). -/
structure User where
  id : Nat
  employee_number : String
  full_name : String
  email : String
  password_hash : String
  role : RoleEnum
  is_active : Bool
deriving DecidableEq, Repr

/-- `Client` row: `sales_contact_id` is a nullable foreign key to users. -/
structure Client where
  id : Nat
  full_name : String
  email : String
  sales_contact_id : Option Nat
deriving DecidableEq, Repr

/-- `Contract` row; the ORM relationship `contract.client` is embedded as an
`Option Client` (absent when the contract is orphaned). Amounts are integers
standing for the `Numeric` columns. -/
structure Contract where
  id : Nat
  total_amount : Int
  amount_due : Int
  is_signed : Bool
  client : Option Client
deriving DecidableEq, Repr

/-- `Event` row; `support_contact_id` is nullable until support is assigned.
Datetimes are modelled as integer timestamps. -/
structure Event where
  id : Nat
  event_date_start : Int
  event_date_end : Int
  location : String
  attendees : Int
  notes : Option String
  contract_id : Nat
  support_contact_id : Option Nat
deriving DecidableEq, Repr

/-- permissions.py `PERMISSIONS`: the static role → capability-list table. -/
def PERMISSIONS : RoleEnum → List String
  | .MANAGEMENT =>
      [ "user.create", "user.read", "user.update", "user.delete",
        "client.read",
        "contract.read", "contract.update",
        "event.read", "event.update" ]
  | .SALES =>
      [ "client.create", "client.read", "client.update_own",
        "contract.create", "contract.read", "contract.update_own",
        "event.create", "event.read" ]
  | .SUPPORT =>
      [ "client.read", "contract.read",
        "event.read", "event.update_own" ]

/-- permissions.py `get_user_permissions`: `PERMISSIONS.get(user.role, [])`;
every role is a key of the table, so the default is never used. -/
def get_user_permissions (user : User) : List String :=
  PERMISSIONS user.role

/-- permissions.py `has_permission`: membership of the capability string in the
user's role's list. -/
def has_permission (user : User) (permission : String) : Bool :=
  get_user_permissions user |>.contains permission

/-- permissions.py `is_client_owner`: `client.sales_contact_id == user.id`
(a `NULL` sales contact compares unequal to any id, as in Python/SQL). -/
def is_client_owner (user : User) (client : Client) : Bool :=
  client.sales_contact_id == some user.id

/-- permissions.py `is_event_support`: `event.support_contact_id == user.id`. -/
def is_event_support (user : User) (event : Event) : Bool :=
  event.support_contact_id == some user.id

/-- permissions.py `can_modify_client`. -/
def can_modify_client (user : User) (client : Client) : Bool :=
  if user.role = RoleEnum.SALES then is_client_owner user client else false

/-- The Python exceptions a predicate evaluation can surface besides its
boolean result: `attributeError` models the `AttributeError` raised by an
attribute access on `None`. -/
inductive PyError where
  | attributeError
deriving DecidableEq, Repr

/-- permissions.py `can_modify_contract`.  The SALES branch evaluates
`contract.client.sales_contact_id` without a `None` guard, so when the
contract has no client the attribute access raises `AttributeError`; the
embedding returns that outcome in the `Except` error component. -/
def can_modify_contract (user : User) (contract : Contract) :
    Except PyError Bool :=
  if user.role = RoleEnum.MANAGEMENT then
    .ok true
  else if user.role = RoleEnum.SALES then
    match contract.client with
    | none => .error .attributeError
    | some c => .ok (c.sales_contact_id == some user.id)
  else
    .ok false

/-- permissions.py `can_modify_event`. -/
def can_modify_event (user : User) (event : Event) : Bool :=
  if user.role = RoleEnum.MANAGEMENT then true
  else if user.role = RoleEnum.SUPPORT then is_event_support user event
  else false

end EpicEvents

namespace EpicEvents

/-- A sample SALES user for concrete checks. -/
def salesUser : User :=
  { id := 1, employee_number := "E1", full_name := "Alice Martin",
    email := "a@x.com", password_hash := "$2b$12$pw123456",
    role := .SALES, is_active := true }

/-- A sample SUPPORT user for concrete checks. -/
def supportUser : User :=
  { id := 2, employee_number := "E2", full_name := "Bob Stone",
    email := "b@x.com", password_hash := "$2b$12$pw123456",
    role := .SUPPORT, is_active := true }

/-- A sample MANAGEMENT user for concrete checks. -/
def managementUser : User :=
  { id := 3, employee_number := "E3", full_name := "Carol Boss",
    email := "c@x.com", password_hash := "$2b$12$pw123456",
    role := .MANAGEMENT, is_active := true }

end EpicEvents

namespace EpicEvents

/-! ## utils.py — password hashing, JWT tokens, token-file persistence -/

/-- Model of the external `bcrypt` library's hash format check: a hash is
well formed when it carries the algorithm/cost/salt prefix the library
emits. -/
def bcrypt_wellformed (h : String) : Bool :=
  "$2b$12$".data.isPrefixOf h.data

/-- Idealized model of `bcrypt.hashpw` at cost 12: the output self-describes
algorithm and cost and verification succeeds exactly for the hashed
password (collision-freeness idealized as exact matching; the random salt
is abstracted away). -/
def bcrypt_hashpw (password : String) : String :=
  "$2b$12$" ++ password

/-- Model of the external `bcrypt.checkpw`: on a well-formed stored hash it
returns whether the password matches; on a malformed hash it raises
`ValueError("Invalid salt")`, modelled as the `Except` error. -/
def bcrypt_checkpw (password stored : String) : Except String Bool :=
  if bcrypt_wellformed stored then .ok (stored == bcrypt_hashpw password)
  else .error "Invalid salt"

/-- utils.py `hash_password`: delegates to bcrypt with cost 12. -/
def hash_password (password : String) : String :=
  bcrypt_hashpw password

/-- utils.py `verify_password`: calls `bcrypt.checkpw` directly, with no
exception handling, so a `ValueError` raised on a malformed stored hash
propagates to the caller. -/
def verify_password (password password_hash : String) : Except String Bool :=
  bcrypt_checkpw password password_hash

/-- utils.py `JWT_EXPIRATION_HOURS`. -/
def JWT_EXPIRATION_HOURS : Nat := 24

/-- The claims carried by a session token (utils.py `create_access_token`
payload): `sub` is the stringified user id. -/
structure TokenPayload where
  sub : String
  employee_number : String
  role : String
  iat : Nat
  exp : Nat
deriving DecidableEq, Repr

/-- Model of an encoded JWT string: either a token signed with the
process-wide secret and carrying a payload, or a malformed / mis-signed /
tampered string. -/
inductive Token where
  | signed (payload : TokenPayload)
  | malformed (raw : String)
deriving DecidableEq, Repr

/-- The two failure kinds of `jwt.decode`: `ExpiredSignatureError` and
`InvalidTokenError`. -/
inductive JwtError where
  | expired
  | invalid
deriving DecidableEq, Repr

/-- Model of the external `jwt.decode` with the process secret at time
`now`: signature is verified first (a malformed or mis-signed token is
`Invalid`), then expiry (`exp ≤ now` is `Expired`), else the payload is
returned. -/
def jwt_decode (t : Token) (now : Nat) : Except JwtError TokenPayload :=
  match t with
  | .malformed _ => .error .invalid
  | .signed p => if p.exp ≤ now then .error .expired else .ok p

/-- utils.py `create_access_token`: claims `sub = str(user_id)`,
`employee_number`, `role`, `iat = now`, `exp = now + 24h` (hours in
seconds). -/
def create_access_token (user_id : Nat) (employee_number : String)
    (role : String) (now : Nat) : Token :=
  .signed { sub := toString user_id, employee_number := employee_number,
            role := role, iat := now,
            exp := now + JWT_EXPIRATION_HOURS * 3600 }

/-- utils.py `decode_access_token`: both decode failures are caught and
collapsed to `None`. -/
def decode_access_token (t : Token) (now : Nat) : Option TokenPayload :=
  match jwt_decode t now with
  | .ok p => some p
  | .error _ => none

/-- The persisted token slot (utils.py `TOKEN_FILE`): the file may not
exist, and an existing file's content is either a token or empty —
`load_token` treats empty content as absent, so `content = none` models
empty (or whitespace-only) text. -/
structure TokenFile where
  fileExists : Bool
  content : Option Token
deriving DecidableEq, Repr

/-- utils.py `save_token`: overwrites the slot with the token. -/
def save_token (t : Token) : TokenFile :=
  { fileExists := true, content := some t }

/-- utils.py `load_token`: absent file or empty content loads as `none`. -/
def load_token (f : TokenFile) : Option Token :=
  if f.fileExists then f.content else none

/-- utils.py `clear_token`: the file is kept but emptied. -/
def clear_token (_ : TokenFile) : TokenFile :=
  { fileExists := true, content := none }

/-- The error component of `get_valid_token`'s result: the strings
`"not_found"`, `"expired"`, `"invalid"` of utils.py. -/
inductive TokenErr where
  | not_found
  | expired
  | invalid
deriving DecidableEq, Repr

/-- utils.py `get_valid_token`: loads the slot; absent → `not_found`; a
token that decodes is returned with the slot untouched; on `Expired` or
`Invalid` the slot is cleared as a side effect before the error is
returned.  The embedding returns the Python `(token, error)` pair together
with the resulting slot state. -/
def get_valid_token (f : TokenFile) (now : Nat) :
    (Option Token × Option TokenErr) × TokenFile :=
  match load_token f with
  | none => ((none, some .not_found), f)
  | some t =>
    match jwt_decode t now with
    | .ok _ => ((some t, none), f)
    | .error .expired => ((none, some .expired), clear_token f)
    | .error .invalid => ((none, some .invalid), clear_token f)

end EpicEvents

namespace EpicEvents

/-! ## controllers/auth_controller.py -/

/-- Model of Python `str.lower` (the emails handled here are ASCII):
lowercases every character. -/
def pyLower (s : String) : String :=
  ⟨s.data.map Char.toLower⟩

/-- Model of Python `str.strip`: removes leading and trailing whitespace. -/
def pyStrip (s : String) : String :=
  ⟨((s.data.dropWhile Char.isWhitespace).reverse.dropWhile
      Char.isWhitespace).reverse⟩

/-- The database as seen by the controllers: the user, contract and event
tables (clients are reached through `Contract.client`), plus the id the
autoincrement primary key would assign next. -/
structure DB where
  users : List User
  contracts : List Contract
  events : List Event
  nextUserId : Nat
deriving DecidableEq, Repr

/-- The Python exceptions surfaced by the auth controller:
`AuthenticationError` and `ValueError`, each carrying its message (an
uncaught `ValueError` escaping from bcrypt is the same Python class). -/
inductive PyExc where
  | authenticationError (msg : String)
  | valueError (msg : String)
deriving DecidableEq, Repr

/-- auth_controller.py `register_user`: rejects an email already stored for
the lowercased input, then a duplicate employee number, then inserts the
user with the email lowercased and the password hashed. -/
def register_user (db : DB) (employee_number full_name email password : String)
    (role : RoleEnum) : Except PyExc (DB × User) :=
  if db.users.any (fun u => u.email == pyLower email) then
    .error (.valueError "Cette adresse email est déjà utilisée")
  else if db.users.any (fun u => u.employee_number == employee_number) then
    .error (.valueError "Ce numéro d'employé existe déjà")
  else
    let user : User :=
      { id := db.nextUserId, employee_number := employee_number,
        full_name := full_name, email := pyLower email,
        password_hash := hash_password password, role := role,
        is_active := true }
    .ok ({ db with users := db.users ++ [user],
                   nextUserId := db.nextUserId + 1 }, user)

/-- The shared login-failure message of `authenticate_user` (used both when
no user matches the email and when the password check fails). -/
def incorrectMsg : String := "Email ou mot de passe incorrect"

/-- The login-failure message of `authenticate_user` for a deactivated
account. -/
def inactiveMsg : String := "Ce compte a été désactivé"

/-- `get_authenticated_user`'s message for a missing stored token. -/
def notFoundMsg : String := "Veuillez vous connecter"

/-- `get_authenticated_user`'s message for an expired stored token. -/
def expiredMsg : String := "Session expirée, veuillez vous reconnecter"

/-- `get_authenticated_user`'s message for an invalid stored token. -/
def invalidMsg : String := "Session invalide, veuillez vous reconnecter"

/-- `get_authenticated_user`'s message when the token is valid but no active
user corresponds to it. -/
def userNotFoundMsg : String := "Utilisateur introuvable, veuillez vous reconnecter"

/-- auth_controller.py `authenticate_user`: looks the user up by lowercased
email; not found → `AuthenticationError("Email ou mot de passe incorrect")`;
inactive → `AuthenticationError("Ce compte a été désactivé")`; failed
password check → `AuthenticationError("Email ou mot de passe incorrect")`;
otherwise issues a token, persists it and returns it (a `ValueError` from
`verify_password` on a malformed stored hash propagates unchanged). -/
def authenticate_user (db : DB) (email password : String) (_f : TokenFile)
    (now : Nat) : Except PyExc ((User × Token) × TokenFile) :=
  match db.users.find? (fun u => u.email == pyLower email) with
  | none => .error (.authenticationError incorrectMsg)
  | some user =>
    if !user.is_active then
      .error (.authenticationError inactiveMsg)
    else
      match verify_password password user.password_hash with
      | .error m => .error (.valueError m)
      | .ok false =>
        .error (.authenticationError incorrectMsg)
      | .ok true =>
        let token :=
          create_access_token user.id user.employee_number user.role.value now
        .ok ((user, token), save_token token)

/-- auth_controller.py `get_current_user`: decodes the token (both decode
failures yield `None`), rejects an empty subject, looks the user up by id —
the SQL compares the integer id column with the string claim, which SQLite's
integer affinity resolves by numeric coercion, embedded as comparing the
stringified id — and returns `None` for a missing or inactive user.  The
`none` token case models Python passing `None` to `jwt.decode`, which raises
a `DecodeError` that `decode_access_token` catches. -/
def get_current_user (db : DB) (token : Option Token) (now : Nat) :
    Option User :=
  match token with
  | none => none
  | some t =>
    match decode_access_token t now with
    | none => none
    | some payload =>
      if payload.sub == "" then none
      else
        match db.users.find? (fun u => toString u.id == payload.sub) with
        | none => none
        | some u => if !u.is_active then none else some u

/-- auth_controller.py `deactivate_user` (keyed by id): sets
`is_active = False` and commits; no token is touched. -/
def deactivate_user (db : DB) (userId : Nat) : DB :=
  { db with
    users := db.users.map
      (fun u => if u.id = userId then { u with is_active := false } else u) }

/-- auth_controller.py `get_authenticated_user`: maps `get_valid_token`'s
three failure kinds to three distinct `AuthenticationError` messages; when a
token is returned but `get_current_user` yields no (active) user, clears the
slot and fails with a fourth message; otherwise returns the user.  The
resulting slot state is returned alongside. -/
def get_authenticated_user (db : DB) (f : TokenFile) (now : Nat) :
    Except PyExc User × TokenFile :=
  match get_valid_token f now with
  | ((_, some .not_found), f1) =>
      (.error (.authenticationError notFoundMsg), f1)
  | ((_, some .expired), f1) =>
      (.error (.authenticationError expiredMsg), f1)
  | ((_, some .invalid), f1) =>
      (.error (.authenticationError invalidMsg), f1)
  | ((token, none), f1) =>
    match get_current_user db token now with
    | none =>
        (.error (.authenticationError userNotFoundMsg), clear_token f1)
    | some user => (.ok user, f1)

/-- auth_controller.py `create_user`: a hard MANAGEMENT role check, field
validation (non-empty employee number and name, email containing `@`,
password length ≥ 8), its own case-sensitive uniqueness checks, then
delegation to `register_user` (whose lowercased-email check also runs). -/
def create_user (db : DB) (current_user : User)
    (employee_number full_name email password : String) (role : RoleEnum) :
    Except PyExc (DB × User) :=
  if current_user.role ≠ RoleEnum.MANAGEMENT then
    .error (.valueError "Seul le management peut créer des collaborateurs")
  else if pyStrip employee_number == "" then
    .error (.valueError "Le numéro d'employé est obligatoire")
  else if pyStrip full_name == "" then
    .error (.valueError "Le nom complet est obligatoire")
  else if pyStrip email == "" || !email.data.contains '@' then
    .error (.valueError "L'email est invalide")
  else if password.length < 8 then
    .error (.valueError "Le mot de passe doit contenir au moins 8 caractères")
  else if db.users.any (fun u => u.employee_number == employee_number) then
    .error (.valueError "Ce numéro d'employé existe déjà")
  else if db.users.any (fun u => u.email == email) then
    .error (.valueError "Cet email est déjà utilisé")
  else
    register_user db employee_number full_name email password role

/-- auth_controller.py `update_user`: a hard MANAGEMENT role check, lookup by
id, then per-field validation and application; the employee-number and email
uniqueness checks exclude the updated record but compare the email exactly as
given, and the email is stored verbatim (not lowercased). -/
def update_user (db : DB) (current_user : User) (user_id : Nat)
    (employee_number full_name email : Option String)
    (role : Option RoleEnum) (is_active : Option Bool) :
    Except PyExc (DB × User) :=
  if current_user.role ≠ RoleEnum.MANAGEMENT then
    .error (.valueError "Seul le management peut modifier des collaborateurs")
  else
    match db.users.find? (fun u => u.id == user_id) with
    | none => .error (.valueError "Collaborateur non trouvé")
    | some user0 => do
      let u1 ←
        match employee_number with
        | none => pure user0
        | some en =>
          if pyStrip en == "" then
            throw (PyExc.valueError "Le numéro d'employé ne peut pas être vide")
          else if db.users.any
              (fun u => u.employee_number == en && u.id ≠ user_id) then
            throw (PyExc.valueError "Ce numéro d'employé est déjà utilisé")
          else pure { user0 with employee_number := en }
      let u2 ←
        match full_name with
        | none => pure u1
        | some fn =>
          if pyStrip fn == "" then
            throw (PyExc.valueError "Le nom complet ne peut pas être vide")
          else pure { u1 with full_name := fn }
      let u3 ←
        match email with
        | none => pure u2
        | some e =>
          if pyStrip e == "" || !e.data.contains '@' then
            throw (PyExc.valueError "L'email est invalide")
          else if db.users.any (fun u => u.email == e && u.id ≠ user_id) then
            throw (PyExc.valueError "Cet email est déjà utilisé")
          else pure { u2 with email := e }
      let u4 := match role with
        | none => u3
        | some r => { u3 with role := r }
      let u5 := match is_active with
        | none => u4
        | some a => { u4 with is_active := a }
      pure ({ db with
              users := db.users.map
                (fun u => if u.id == user_id then u5 else u) }, u5)

end EpicEvents

namespace EpicEvents

/-! ## controllers/contract_controller.py and event_controller.py -/

/-- The controller exceptions `ContractError` and `EventError`, each with
its message. -/
inductive CtrlError where
  | contractError (msg : String)
  | eventError (msg : String)
deriving DecidableEq, Repr

/-- The permission-denied message of `update_contract`. -/
def contractDeniedMsg : String :=
  "Vous n'avez pas la permission de modifier ce contrat"

/-- The permission-denied message of `update_event`. -/
def eventDeniedMsg : String :=
  "Vous n'avez pas la permission de modifier cet événement"

/-- contract_controller.py `update_contract`: lookup by id; then the dual
permission check — `contract.update` grants outright, else
`contract.update_own` grants only when the contract has a client whose
`sales_contact_id` is the acting user (the `contract.client and …` guard
makes an absent client simply fail the ownership test); denied → raise
`ContractError`; granted → apply the optional field updates and commit. -/
def update_contract (db : DB) (user : User) (contract_id : Nat)
    (total_amount amount_due : Option Int) (is_signed : Option Bool) :
    Except CtrlError (DB × Contract) :=
  match db.contracts.find? (fun c => c.id == contract_id) with
  | none =>
    .error (.contractError
      ("Contrat #" ++ toString contract_id ++ " non trouvé"))
  | some contract =>
    let can_update :=
      if has_permission user "contract.update" then true
      else if has_permission user "contract.update_own" then
        match contract.client with
        | some cl => cl.sales_contact_id == some user.id
        | none => false
      else false
    if !can_update then .error (.contractError contractDeniedMsg)
    else
      let c1 := match total_amount with
        | some t => { contract with total_amount := t }
        | none => contract
      let c2 := match amount_due with
        | some a => { c1 with amount_due := a }
        | none => c1
      let c3 := match is_signed with
        | some s => { c2 with is_signed := s }
        | none => c2
      .ok ({ db with
             contracts := db.contracts.map
               (fun c => if c.id == contract_id then c3 else c) }, c3)

/-- event_controller.py `update_event`: lookup by id; the dual permission
check — `event.update` grants outright, else `event.update_own` grants only
when `event.support_contact_id` is the acting user; denied → raise
`EventError`; granted → apply the optional updates (a participant count
below 1 and an end date before the start date are rejected) and commit. -/
def update_event (db : DB) (user : User) (event_id : Nat)
    (event_date_start event_date_end : Option Int) (location : Option String)
    (attendees : Option Int) (notes : Option String) :
    Except CtrlError (DB × Event) :=
  match db.events.find? (fun e => e.id == event_id) with
  | none =>
    .error (.eventError
      ("Événement #" ++ toString event_id ++ " non trouvé"))
  | some event =>
    let can_update :=
      if has_permission user "event.update" then true
      else if has_permission user "event.update_own" then
        event.support_contact_id == some user.id
      else false
    if !can_update then .error (.eventError eventDeniedMsg)
    else do
      let e1 := match event_date_start with
        | some d => { event with event_date_start := d }
        | none => event
      let e2 := match event_date_end with
        | some d => { e1 with event_date_end := d }
        | none => e1
      let e3 := match location with
        | some l => { e2 with location := l }
        | none => e2
      let e4 : Event ←
        match attendees with
        | some a =>
          if a < 1 then
            throw (CtrlError.eventError
              "Le nombre de participants doit être au moins 1")
          else pure { e3 with attendees := a }
        | none => pure e3
      let e5 : Event := match notes with
        | some n => { e4 with notes := some n }
        | none => e4
      if e5.event_date_end < e5.event_date_start then
        throw (CtrlError.eventError
          "La date de fin doit être postérieure à la date de début")
      else
        pure ({ db with
                events := db.events.map
                  (fun e => if e.id == event_id then e5 else e) }, e5)

end EpicEvents

namespace EpicEvents

/-! ## Concrete sample data for counterexamples and witnesses -/

/-- A deactivated SALES user. -/
def inactiveUser : User :=
  { id := 4, employee_number := "E4", full_name := "Dan Gone",
    email := "d@x.com", password_hash := hash_password "pw123456",
    role := .SALES, is_active := false }

/-- A client whose sales contact is `salesUser` (id 1). -/
def clientOfA : Client :=
  { id := 100, full_name := "Acme", email := "acme@corp.com",
    sales_contact_id := some 1 }

/-- A client whose sales contact is another salesperson (id 9). -/
def clientOfOther : Client :=
  { id := 101, full_name := "Globex", email := "globex@corp.com",
    sales_contact_id := some 9 }

/-- A contract of `salesUser`'s client. -/
def contractOwned : Contract :=
  { id := 10, total_amount := 1000, amount_due := 500, is_signed := false,
    client := some clientOfA }

/-- A contract of another salesperson's client. -/
def contractOther : Contract :=
  { id := 11, total_amount := 2000, amount_due := 0, is_signed := true,
    client := some clientOfOther }

/-- An orphaned contract: its client reference is absent. -/
def contractOrphan : Contract :=
  { id := 12, total_amount := 3000, amount_due := 3000, is_signed := false,
    client := none }

/-- An event assigned to `supportUser` (id 2). -/
def eventOfB : Event :=
  { id := 20, event_date_start := 0, event_date_end := 10,
    location := "Paris", attendees := 5, notes := none,
    contract_id := 10, support_contact_id := some 2 }

/-- An event assigned to another support member (id 9). -/
def eventOther : Event :=
  { id := 21, event_date_start := 0, event_date_end := 10,
    location := "Lyon", attendees := 5, notes := none,
    contract_id := 11, support_contact_id := some 9 }

/-- A small concrete database covering all the sample rows. -/
def sampleDB : DB :=
  { users := [salesUser, supportUser, managementUser, inactiveUser],
    contracts := [contractOwned, contractOther, contractOrphan],
    events := [eventOfB, eventOther],
    nextUserId := 5 }

/-- A fresh user as `register_user` inserts it on `sampleDB` for the input
email "Z@X.com" (lowercased on storage). -/
def user9 : User :=
  { id := 5, employee_number := "E9", full_name := "Zoe New",
    email := "z@x.com", password_hash := hash_password "pw987654",
    role := .SALES, is_active := true }

/-- `sampleDB` after that registration. -/
def regDB9 : DB :=
  { sampleDB with users := sampleDB.users ++ [user9], nextUserId := 6 }

/-- `supportUser` after `update_user` stores the email "A@X.com" verbatim. -/
def supportUserUpd : User := { supportUser with email := "A@X.com" }

/-- `sampleDB` after that update of user id 2. -/
def updDB9 : DB :=
  { sampleDB with
    users := [salesUser, supportUserUpd, managementUser, inactiveUser] }

/-- A signed token that is already expired at time 10. -/
def tokExpired : Token :=
  .signed { sub := "1", employee_number := "E1", role := "sales",
            iat := 0, exp := 10 }

/-- A malformed (unsigned / tampered) token string. -/
def tokBad : Token := .malformed "not-a-jwt"

/-- The empty token slot: the file does not exist. -/
def emptyFile : TokenFile := { fileExists := false, content := none }

end EpicEvents

namespace EpicEvents

/-- C1: the permission table is exact — `has_permission` holds iff the
capability string is in the role's listed set, and the four sampled
memberships come out as the specification states. -/
theorem permission_table_exact :
    (∀ (u : User) (cap : String),
        has_permission u cap = true ↔ cap ∈ PERMISSIONS u.role)
    ∧ has_permission salesUser "client.create" = true
    ∧ has_permission salesUser "user.create" = false
    ∧ has_permission supportUser "event.update" = false
    ∧ has_permission supportUser "event.update_own" = true := by
  refine ⟨?_, by decide, by decide, by decide, by decide⟩
  intro u cap
  simp [has_permission, get_user_permissions, List.contains, List.elem_iff]

/-- C7: a token issued at `now0` decodes at `now0` to claims whose
`exp - iat` is exactly 24 hours, whose `sub` is the stringified subject id,
and whose `employee_number` and `role` are carried verbatim. -/
theorem token_lifetime_exact (uid : Nat) (emp rl : String) (now0 : Nat) :
    ∃ p : TokenPayload,
      jwt_decode (create_access_token uid emp rl now0) now0 = .ok p
      ∧ p.exp - p.iat = 24 * 3600
      ∧ p.sub = toString uid
      ∧ p.employee_number = emp
      ∧ p.role = rl := by
  refine ⟨{ sub := toString uid, employee_number := emp, role := rl,
            iat := now0, exp := now0 + JWT_EXPIRATION_HOURS * 3600 },
          ?_, ?_, rfl, rfl, rfl⟩
  · simp only [create_access_token, jwt_decode]
    rw [if_neg (by simp [JWT_EXPIRATION_HOURS])]
  · simp [JWT_EXPIRATION_HOURS]

/-- C8 counterexample: on a malformed stored hash, `verify_password` does
not return `false` — it propagates bcrypt's `ValueError("Invalid salt")`. -/
theorem verify_password_malformed_raises :
    verify_password "pw123456" "nothash" = .error "Invalid salt" := by
  rfl

/-- C8 amended: `verify_password` never throws on a *well-formed* stored
hash (it returns a boolean, `true` exactly on the hashed password), but on a
malformed hash it propagates the underlying `ValueError` instead of
returning `false`. -/
theorem verify_password_amended (p h : String) :
    (bcrypt_wellformed h = false →
       verify_password p h = .error "Invalid salt")
    ∧ (bcrypt_wellformed h = true →
       verify_password p h = .ok (h == bcrypt_hashpw p))
    ∧ verify_password p (hash_password p) = .ok true := by
  refine ⟨fun hw => ?_, fun hw => ?_, ?_⟩
  · simp [verify_password, bcrypt_checkpw, hw]
  · simp [verify_password, bcrypt_checkpw, hw]
  · simp only [verify_password, bcrypt_checkpw, hash_password,
      bcrypt_wellformed, bcrypt_hashpw, String.data_append,
      List.isPrefixOf_iff_prefix]
    rw [if_pos (List.prefix_append _ _)]
    simp


/-- C8 witness: the amended statement applied at concrete inputs — a
malformed hash raises, a well-formed non-matching hash returns `false`. -/
theorem verify_password_amended_witness :
    verify_password "pw123456" "garbage" = .error "Invalid salt"
    ∧ verify_password "pw123456" "$2b$12$other" = .ok false := by
  constructor
  · exact (verify_password_amended "pw123456" "garbage").1 (by rfl)
  · exact ((verify_password_amended "pw123456" "$2b$12$other").2.1
      (by rfl)).trans (by rfl)

/-- C4: at the failing input — a SALES principal and an orphaned contract
(absent client) — `can_modify_contract` raises `AttributeError` instead of
returning `false`; for MANAGEMENT it returns `true` regardless of the absent
client, and for SUPPORT it returns `false`. -/
theorem can_modify_contract_orphan_raises :
    can_modify_contract salesUser contractOrphan = .error .attributeError
    ∧ can_modify_contract managementUser contractOrphan = .ok true
    ∧ can_modify_contract supportUser contractOrphan = .ok false :=
  ⟨rfl, rfl, rfl⟩

/-- C6: `get_valid_token` returns `(none, not_found)` on an absent-or-empty
slot; on a stored token that decodes it returns the token with the slot
unchanged; on a stored token whose decode is Expired or Invalid it clears
the slot before returning that error, so a subsequent `load_token` is
absent. -/
theorem get_valid_token_spec (f : TokenFile) (now : Nat) :
    (load_token f = none →
       get_valid_token f now = ((none, some .not_found), f))
    ∧ (∀ t, load_token f = some t →
        (∀ p, jwt_decode t now = .ok p →
            get_valid_token f now = ((some t, none), f))
        ∧ (jwt_decode t now = .error .expired →
            get_valid_token f now = ((none, some .expired), clear_token f)
            ∧ load_token (get_valid_token f now).2 = none)
        ∧ (jwt_decode t now = .error .invalid →
            get_valid_token f now = ((none, some .invalid), clear_token f)
            ∧ load_token (get_valid_token f now).2 = none)) := by
  refine ⟨fun h => ?_, fun t ht => ⟨fun p hp => ?_, fun hd => ?_, fun hd => ?_⟩⟩
  · simp [get_valid_token, h]
  · simp [get_valid_token, ht, hp]
  · have hg : get_valid_token f now = ((none, some .expired), clear_token f) := by
      simp [get_valid_token, ht, hd]
    exact ⟨hg, by rw [hg]; rfl⟩
  · have hg : get_valid_token f now = ((none, some .invalid), clear_token f) := by
      simp [get_valid_token, ht, hd]
    exact ⟨hg, by rw [hg]; rfl⟩

/-- C6 witness: the expired branch at a concrete slot — a saved token that
is expired at time 10 yields `(none, expired)` and the slot reloads as
absent. -/
theorem get_valid_token_spec_witness :
    get_valid_token (save_token tokExpired) 10
      = ((none, some .expired), clear_token (save_token tokExpired))
    ∧ load_token (get_valid_token (save_token tokExpired) 10).2 = none := by
  have h := (get_valid_token_spec (save_token tokExpired) 10).2 tokExpired rfl
  exact h.2.1 rfl


/-- C3 counterexample: a deactivated account and a wrong password do not
fail with the same message — login for the deactivated user yields
"Ce compte a été désactivé" while a wrong password yields
"Email ou mot de passe incorrect". -/
theorem login_inactive_message_distinct :
    authenticate_user sampleDB "d@x.com" "pw123456" emptyFile 0
      = .error (.authenticationError inactiveMsg)
    ∧ authenticate_user sampleDB "a@x.com" "wrongpass" emptyFile 0
      = .error (.authenticationError incorrectMsg)
    ∧ inactiveMsg ≠ incorrectMsg := by
  refine ⟨rfl, rfl, by decide⟩

/-- C3 amended: all three login failures raise the same exception kind
(`AuthenticationError`), and not-found and wrong-password share the same
message, but a deactivated account fails with a distinct message — the
inactive case is distinguishable from a wrong-password failure. -/
theorem authenticate_failure_modes (db : DB) (email password : String)
    (f : TokenFile) (now : Nat) :
    (db.users.find? (fun v => v.email == pyLower email) = none →
       authenticate_user db email password f now
         = .error (.authenticationError incorrectMsg))
    ∧ (∀ u, db.users.find? (fun v => v.email == pyLower email) = some u →
        u.is_active = false →
        authenticate_user db email password f now
          = .error (.authenticationError inactiveMsg))
    ∧ (∀ u, db.users.find? (fun v => v.email == pyLower email) = some u →
        u.is_active = true →
        verify_password password u.password_hash = .ok false →
        authenticate_user db email password f now
          = .error (.authenticationError incorrectMsg))
    ∧ inactiveMsg ≠ incorrectMsg := by
  refine ⟨fun h => ?_, fun u hu hi => ?_, fun u hu ha hv => ?_, by decide⟩
  · simp [authenticate_user, h]
  · simp [authenticate_user, hu, hi]
  · simp [authenticate_user, hu, ha, hv]

/-- C3 witness: the amended statement applied to the sample database for
each of the three failure modes. -/
theorem authenticate_failure_modes_witness :
    authenticate_user sampleDB "nobody@x.com" "pw123456" emptyFile 0
      = .error (.authenticationError incorrectMsg)
    ∧ authenticate_user sampleDB "d@x.com" "pw123456" emptyFile 0
      = .error (.authenticationError inactiveMsg)
    ∧ authenticate_user sampleDB "a@x.com" "wrongpass" emptyFile 0
      = .error (.authenticationError incorrectMsg) := by
  refine ⟨?_, ?_, ?_⟩
  · exact (authenticate_failure_modes sampleDB "nobody@x.com" "pw123456"
      emptyFile 0).1 rfl
  · exact (authenticate_failure_modes sampleDB "d@x.com" "pw123456"
      emptyFile 0).2.1 inactiveUser rfl rfl
  · exact (authenticate_failure_modes sampleDB "a@x.com" "wrongpass"
      emptyFile 0).2.2.1 salesUser rfl rfl rfl


/-- `has_permission` only looks at the role. -/
theorem has_permission_role (u : User) (r : RoleEnum) (h : u.role = r)
    (cap : String) :
    has_permission u cap = (PERMISSIONS r).contains cap := by
  simp [has_permission, get_user_permissions, h]

/-- Characterization of `update_contract` on a found contract: it succeeds
iff the dual permission check grants, and returns the permission-denied
`ContractError` iff it does not. -/
theorem update_contract_cases (db : DB) (user : User) (cid : Nat)
    (t a : Option Int) (s : Option Bool) (c : Contract)
    (hfind : db.contracts.find? (fun x => x.id == cid) = some c) :
    ((∃ r, update_contract db user cid t a s = .ok r)
       ↔ (has_permission user "contract.update" = true
          ∨ (has_permission user "contract.update_own" = true
             ∧ ∃ cl, c.client = some cl
                 ∧ cl.sales_contact_id = some user.id)))
    ∧ (update_contract db user cid t a s
         = .error (.contractError contractDeniedMsg)
       ↔ ¬(has_permission user "contract.update" = true
           ∨ (has_permission user "contract.update_own" = true
              ∧ ∃ cl, c.client = some cl
                  ∧ cl.sales_contact_id = some user.id))) := by
  by_cases h1 : has_permission user "contract.update"
  · constructor <;> simp [update_contract, hfind, h1]
  · by_cases h2 : has_permission user "contract.update_own"
    · cases hcl : c.client with
      | none =>
        constructor <;> simp [update_contract, hfind, h1, h2, hcl]
      | some cl =>
        by_cases h3 : cl.sales_contact_id = some user.id
        · constructor <;> simp [update_contract, hfind, h1, h2, hcl, h3]
        · constructor <;> simp [update_contract, hfind, h1, h2, hcl, h3]
    · constructor <;> simp [update_contract, hfind, h1, h2]

/-- Characterization of `update_event` on a found event: the
permission-denied `EventError` is returned exactly when neither
`event.update` nor (`event.update_own` together with being the assigned
support contact) grants the update; when granted, any later failure carries
a different message. -/
theorem update_event_denied_iff (db : DB) (user : User) (eid : Nat)
    (ds de : Option Int) (loc : Option String) (att : Option Int)
    (nts : Option String) (e : Event)
    (hfind : db.events.find? (fun x => x.id == eid) = some e) :
    (update_event db user eid ds de loc att nts
       = .error (.eventError eventDeniedMsg))
    ↔ ¬(has_permission user "event.update" = true
        ∨ (has_permission user "event.update_own" = true
           ∧ e.support_contact_id = some user.id)) := by
  have hgr : ((if has_permission user "event.update" then true
      else if has_permission user "event.update_own" then
        e.support_contact_id == some user.id else false) = true) →
      update_event db user eid ds de loc att nts
        ≠ .error (.eventError eventDeniedMsg) := by
    intro hcan
    simp only [update_event, hfind, hcan, Bool.not_true, if_false]
    rcases att with _ | a
    · simp only [bind, Except.bind, pure, Except.pure]
      split <;> simp_all [eventDeniedMsg]
      split <;> simp [eventDeniedMsg, throw, throwThe, MonadExceptOf.throw]
    · by_cases ha : a < 1
      · simp [ha, eventDeniedMsg, throw, throwThe, MonadExceptOf.throw,
          bind, Except.bind]
      · simp only [ha, if_false, bind, Except.bind, pure, Except.pure]
        split <;> simp_all [eventDeniedMsg]
        split <;> simp [eventDeniedMsg, throw, throwThe, MonadExceptOf.throw]
  by_cases h1 : has_permission user "event.update"
  · simp only [h1, if_true] at hgr
    simp [hgr trivial, h1]
  · by_cases h2 : has_permission user "event.update_own"
    · by_cases h3 : e.support_contact_id = some user.id
      · have h3b : (e.support_contact_id == some user.id) = true := by
          simp [h3]
        simp [h1, h2, h3b] at hgr
        simp [hgr, h1, h2, h3]
      · have h3b : (e.support_contact_id == some user.id) = false := by
          simp [h3]
        have hEq : update_event db user eid ds de loc att nts
            = .error (.eventError eventDeniedMsg) := by
          simp [update_event, hfind, h1, h2, h3b]
        simp [hEq, h1, h2, h3]
    · have hEq : update_event db user eid ds de loc att nts
          = .error (.eventError eventDeniedMsg) := by
        simp [update_event, hfind, h1, h2]
      simp [hEq, h1, h2]


/-- C2: for every principal and found contract, the update succeeds iff the
plain `contract.update` capability is held or `contract.update_own` is held
and the contract's client's sales contact is the principal; hence MANAGEMENT
updates any contract, SALES updates exactly its own clients' contracts and
never another salesperson's; the event-update path obeys the same dual rule
with `event.update`/`event.update_own` and the event's support contact. -/
theorem update_grant_rule (db : DB) (user : User) (cid eid : Nat)
    (t a : Option Int) (s : Option Bool)
    (ds de : Option Int) (loc : Option String) (att : Option Int)
    (nts : Option String) :
    (∀ c, db.contracts.find? (fun x => x.id == cid) = some c →
       ((∃ r, update_contract db user cid t a s = .ok r)
          ↔ (has_permission user "contract.update" = true
             ∨ (has_permission user "contract.update_own" = true
                ∧ ∃ cl, c.client = some cl
                    ∧ cl.sales_contact_id = some user.id)))
       ∧ (user.role = .MANAGEMENT →
            ∃ r, update_contract db user cid t a s = .ok r)
       ∧ (user.role = .SALES →
            ((∃ r, update_contract db user cid t a s = .ok r)
               ↔ ∃ cl, c.client = some cl
                   ∧ cl.sales_contact_id = some user.id))
       ∧ (∀ cl v, user.role = .SALES → c.client = some cl →
            cl.sales_contact_id = some v → v ≠ user.id →
            update_contract db user cid t a s
              = .error (.contractError contractDeniedMsg)))
    ∧ (∀ e, db.events.find? (fun x => x.id == eid) = some e →
        (update_event db user eid ds de loc att nts
           = .error (.eventError eventDeniedMsg)
          ↔ ¬(has_permission user "event.update" = true
              ∨ (has_permission user "event.update_own" = true
                 ∧ e.support_contact_id = some user.id)))) := by
  constructor
  · intro c hfind
    obtain ⟨hok, hden⟩ := update_contract_cases db user cid t a s c hfind
    refine ⟨hok, ?_, ?_, ?_⟩
    · intro hrole
      exact hok.mpr (Or.inl (by rw [has_permission_role user _ hrole]; rfl))
    · intro hrole
      have h1 : has_permission user "contract.update" = false := by
        rw [has_permission_role user _ hrole]; rfl
      have h2 : has_permission user "contract.update_own" = true := by
        rw [has_permission_role user _ hrole]; rfl
      rw [hok, h1, h2]
      simp
    · intro cl v hrole hcl hsc hne
      have h1 : has_permission user "contract.update" = false := by
        rw [has_permission_role user _ hrole]; rfl
      apply hden.mpr
      rintro (hp | ⟨hp2, cl', hcl', hsc'⟩)
      · rw [h1] at hp; cases hp
      · rw [hcl] at hcl'
        injection hcl' with hcleq
        subst hcleq
        have hv := hsc.symm.trans hsc'
        injection hv with hv'
        exact hne hv'
  · intro e hfind
    exact update_event_denied_iff db user eid ds de loc att nts e hfind

/-- C2 witness: on the sample database, SALES (id 1) successfully updates
the contract of its own client, and SUPPORT (id 2) is denied the update of
an event assigned to someone else. -/
theorem update_grant_rule_witness :
    (∃ r, update_contract sampleDB salesUser 10 none none (some true)
      = .ok r)
    ∧ update_event sampleDB supportUser 21 none none none none none
        = .error (.eventError eventDeniedMsg) := by
  constructor
  · exact ((update_grant_rule sampleDB salesUser 10 21 none none (some true)
      none none none none none).1 contractOwned rfl).1.mpr
      (Or.inr ⟨by decide, clientOfA, rfl, rfl⟩)
  · exact ((update_grant_rule sampleDB supportUser 10 21 none none
      (some true) none none none none none).2 eventOther rfl).mpr (by decide)

/-- C10: a SALES principal (holding `contract.update_own` but not
`contract.update`) updating an existing contract whose client reference is
absent gets the permission-denied `ContractError` — the `contract.client
and …` guard makes the ownership test fail instead of raising an attribute
error, and the raise happens before any field is modified. -/
theorem update_contract_orphan_denied (db : DB) (user : User) (cid : Nat)
    (t a : Option Int) (s : Option Bool) (c : Contract)
    (hrole : user.role = .SALES)
    (hfind : db.contracts.find? (fun x => x.id == cid) = some c)
    (hcl : c.client = none) :
    update_contract db user cid t a s
      = .error (.contractError contractDeniedMsg) := by
  have h1 : has_permission user "contract.update" = false := by
    rw [has_permission_role user _ hrole]; rfl
  apply (update_contract_cases db user cid t a s c hfind).2.mpr
  rintro (hp | ⟨hp2, cl, hcl', hsc⟩)
  · rw [h1] at hp; cases hp
  · rw [hcl] at hcl'; cases hcl'

/-- C10 witness: on the sample database, the SALES user is denied the
update of the orphaned contract with the permission message. -/
theorem update_contract_orphan_denied_witness :
    update_contract sampleDB salesUser 12 none none (some true)
      = .error (.contractError contractDeniedMsg) :=
  update_contract_orphan_denied sampleDB salesUser 12 none none (some true)
    contractOrphan rfl rfl rfl

/-- Any successful `register_user` stores the email lowercased and inserts
the new user. -/
theorem register_user_ok (db : DB) (en fn email pw : String)
    (role : RoleEnum) (db2 : DB) (u : User)
    (h : register_user db en fn email pw role = .ok (db2, u)) :
    u.email = pyLower email ∧ u ∈ db2.users := by
  simp only [register_user] at h
  split at h
  · cases h
  · split at h
    · cases h
    · simp only [Except.ok.injEq, Prod.mk.injEq] at h
      obtain ⟨hdb, hu⟩ := h
      subst hdb
      subst hu
      exact ⟨rfl, by simp⟩

/-- Any successful `update_user` that sets the email stores it exactly as
given (no lowercasing). -/
theorem update_user_email_verbatim (db : DB) (cu : User) (uid : Nat)
    (e : String) (db2 : DB) (u : User)
    (h : update_user db cu uid none none (some e) none none
           = .ok (db2, u)) :
    u.email = e := by
  simp only [update_user] at h
  split at h
  · cases h
  · split at h
    · cases h
    · simp only [bind, Except.bind, pure, Except.pure] at h
      split at h
      · cases h
      · split at h
        · cases h
        · simp only [Except.ok.injEq, Prod.mk.injEq] at h
          obtain ⟨hdb, hu⟩ := h
          subst hu
          rfl

/-- C9 counterexample: `update_user` accepts the email "A@X.com" for user
id 2 although a different user (id 1) already holds its lowercased form
"a@x.com", and stores it verbatim — neither lowercasing nor the
case-insensitive uniqueness check of the claim happens on the update
path. -/
theorem update_user_case_leak :
    (update_user sampleDB managementUser 2 none none (some "A@X.com")
        none none).map (fun r => r.2.email) = .ok "A@X.com"
    ∧ pyLower "A@X.com" = salesUser.email
    ∧ salesUser.id ≠ 2 :=
  ⟨rfl, rfl, by decide⟩

/-- C9 amended: registration (and the administrative creation that
delegates to it) lowercases the stored email, rejects, with a conflict
error, an email whose lowercased form is already stored, and rejects a
duplicate employee number; the administrative update instead stores the
email verbatim and rejects only an exact (case-sensitive) duplicate held by
a different user. -/
theorem email_uniqueness_amended (db : DB) (en fn email pw : String)
    (role : RoleEnum) :
    (∀ db2 u, register_user db en fn email pw role = .ok (db2, u) →
       u.email = pyLower email ∧ u ∈ db2.users)
    ∧ ((∃ v ∈ db.users, v.email = pyLower email) →
       register_user db en fn email pw role
         = .error (.valueError "Cette adresse email est déjà utilisée"))
    ∧ ((∀ v ∈ db.users, v.email ≠ pyLower email) →
       (∃ v ∈ db.users, v.employee_number = en) →
       register_user db en fn email pw role
         = .error (.valueError "Ce numéro d'employé existe déjà"))
    ∧ (∀ cu db2 u, create_user db cu en fn email pw role = .ok (db2, u) →
       u.email = pyLower email)
    ∧ (∀ cu uid e db2 u,
        update_user db cu uid none none (some e) none none = .ok (db2, u) →
        u.email = e)
    ∧ (∀ cu uid e u0, cu.role = .MANAGEMENT →
        db.users.find? (fun x => x.id == uid) = some u0 →
        (pyStrip e == "") = false → e.data.contains '@' = true →
        (∃ v ∈ db.users, v.email = e ∧ v.id ≠ uid) →
        update_user db cu uid none none (some e) none none
          = .error (.valueError "Cet email est déjà utilisé")) := by
  refine ⟨fun db2 u h => register_user_ok db en fn email pw role db2 u h,
    ?_, ?_, ?_, fun cu uid e db2 u h =>
      update_user_email_verbatim db cu uid e db2 u h, ?_⟩
  · rintro ⟨v, hv, he⟩
    have hany : (db.users.any fun x => x.email == pyLower email) = true := by
      rw [List.any_eq_true]
      exact ⟨v, hv, by simp [he]⟩
    simp [register_user, hany]
  · intro hne hdup
    have hmail : (db.users.any fun x => x.email == pyLower email)
        = false := by
      rw [List.any_eq_false]
      intro x hx
      simp [hne x hx]
    have hany : (db.users.any fun x => x.employee_number == en) = true := by
      rw [List.any_eq_true]
      obtain ⟨v, hv, hen⟩ := hdup
      exact ⟨v, hv, by simp [hen]⟩
    simp [register_user, hmail, hany]
  · intro cu db2 u h
    simp only [create_user] at h
    split at h
    · cases h
    · split at h
      · cases h
      · split at h
        · cases h
        · split at h
          · cases h
          · split at h
            · cases h
            · split at h
              · cases h
              · split at h
                · cases h
                · exact (register_user_ok db en fn email pw role db2 u h).1
  · intro cu uid e u0 hrole hfind hstrip hcont hdup
    have hany : (db.users.any fun x => x.email == e && x.id ≠ uid)
        = true := by
      rw [List.any_eq_true]
      obtain ⟨v, hv, hve, hvid⟩ := hdup
      exact ⟨v, hv, by simp [hve, hvid]⟩
    simp [update_user, hrole, hfind, hstrip, hcont, hany, bind, Except.bind,
      pure, Except.pure, throw, throwThe, MonadExceptOf.throw]
    rw [if_pos (by simpa using hcont), if_pos hdup]

/-- C9 witness: the amended statement on the sample database — a fresh
registration stores the lowercased email, a lowercased-duplicate
registration is rejected, a duplicate employee number is rejected, and an
administrative email update is stored verbatim. -/
theorem email_uniqueness_amended_witness :
    (user9.email = pyLower "Z@X.com" ∧ user9 ∈ regDB9.users)
    ∧ register_user sampleDB "E9" "Zoe New" "A@X.com" "pw987654" .SALES
        = .error (.valueError "Cette adresse email est déjà utilisée")
    ∧ register_user sampleDB "E1" "Zoe New" "Z@X.com" "pw987654" .SALES
        = .error (.valueError "Ce numéro d'employé existe déjà")
    ∧ supportUserUpd.email = "A@X.com" := by
  refine ⟨?_, ?_, ?_, ?_⟩
  · exact (email_uniqueness_amended sampleDB "E9" "Zoe New" "Z@X.com"
      "pw987654" .SALES).1 regDB9 user9 rfl
  · exact (email_uniqueness_amended sampleDB "E9" "Zoe New" "A@X.com"
      "pw987654" .SALES).2.1 ⟨salesUser, by decide, rfl⟩
  · exact (email_uniqueness_amended sampleDB "E1" "Zoe New" "Z@X.com"
      "pw987654" .SALES).2.2.1 (by decide) ⟨salesUser, by decide, rfl⟩
  · exact (email_uniqueness_amended sampleDB "E9" "Zoe New" "Z@X.com"
      "pw987654" .SALES).2.2.2.2.1 managementUser 2 "A@X.com" updDB9
      supportUserUpd rfl

/-- A valid-token slot together with a decode giving a missing or inactive
principal makes `get_current_user` return `None`. -/
theorem get_current_user_none (db : DB) (t : Token) (now : Nat)
    (p : TokenPayload) (hdec : jwt_decode t now = .ok p)
    (hnone : db.users.find? (fun x => toString x.id == p.sub) = none
      ∨ ∃ u, db.users.find? (fun x => toString x.id == p.sub) = some u
           ∧ u.is_active = false) :
    get_current_user db (some t) now = none := by
  simp only [get_current_user, decode_access_token, hdec]
  by_cases hsub : (p.sub == "") = true
  · simp [hsub]
  · rcases hnone with hm | ⟨u, hu, hact⟩
    · simp [hsub, hm]
    · simp [hsub, hu, hact]

/-- When the slot held a token that decoded, a `None` current user makes
`get_authenticated_user` clear the slot and fail with the user-not-found
message. -/
theorem get_authenticated_user_nouser (db : DB) (f : TokenFile) (now : Nat)
    (t : Token) (f1 : TokenFile)
    (hgv : get_valid_token f now = ((some t, none), f1))
    (hcur : get_current_user db (some t) now = none) :
    get_authenticated_user db f now
      = (.error (.authenticationError userNotFoundMsg), clear_token f1) := by
  simp [get_authenticated_user, hgv, hcur]


/-- C5: `get_authenticated_user` maps the three `get_valid_token` failures
to three distinct `AuthenticationError` messages; and when the stored token
is valid but the principal it designates is missing or inactive, it clears
the slot and fails with the user-not-found message — in particular an
already-issued, signature-valid, unexpired token of a principal deactivated
afterwards is rejected at that check. -/
theorem resolve_current_spec (db : DB) (f : TokenFile) (now : Nat) :
    ((get_valid_token f now).1.2 = some .not_found →
       get_authenticated_user db f now
         = (.error (.authenticationError notFoundMsg),
            (get_valid_token f now).2))
    ∧ ((get_valid_token f now).1.2 = some .expired →
       get_authenticated_user db f now
         = (.error (.authenticationError expiredMsg),
            (get_valid_token f now).2))
    ∧ ((get_valid_token f now).1.2 = some .invalid →
       get_authenticated_user db f now
         = (.error (.authenticationError invalidMsg),
            (get_valid_token f now).2))
    ∧ (notFoundMsg ≠ expiredMsg ∧ notFoundMsg ≠ invalidMsg
       ∧ expiredMsg ≠ invalidMsg)
    ∧ (∀ t p, (get_valid_token f now).1 = (some t, none) →
        jwt_decode t now = .ok p →
        db.users.find? (fun x => toString x.id == p.sub) = none →
        get_authenticated_user db f now
          = (.error (.authenticationError userNotFoundMsg), clear_token f))
    ∧ (∀ t p u, (get_valid_token f now).1 = (some t, none) →
        jwt_decode t now = .ok p →
        db.users.find? (fun x => toString x.id == p.sub) = some u →
        u.is_active = false →
        get_authenticated_user db f now
          = (.error (.authenticationError userNotFoundMsg), clear_token f))
    ∧ (∀ uid emp rl now0 u, now < now0 + JWT_EXPIRATION_HOURS * 3600 →
        u.id = uid →
        db.users.find? (fun x => toString x.id == toString uid) = some u →
        get_authenticated_user (deactivate_user db uid)
            (save_token (create_access_token uid emp rl now0)) now
          = (.error (.authenticationError userNotFoundMsg),
             clear_token (save_token (create_access_token uid emp rl now0)))) := by
  rcases hgv : get_valid_token f now with ⟨⟨tok, err⟩, f1⟩
  refine ⟨?_, ?_, ?_, ⟨by decide, by decide, by decide⟩, ?_, ?_, ?_⟩
  · intro h1
    simp only at h1
    subst h1
    simp [get_authenticated_user, hgv]
  · intro h1
    simp only at h1
    subst h1
    simp [get_authenticated_user, hgv]
  · intro h1
    simp only at h1
    subst h1
    simp [get_authenticated_user, hgv]
  · intro t p hpair hdec hmiss
    simp only [Prod.mk.injEq] at hpair
    obtain ⟨htok, herr⟩ := hpair
    subst htok
    subst herr
    have hcur := get_current_user_none db t now p hdec (Or.inl hmiss)
    have h := get_authenticated_user_nouser db f now t f1 hgv hcur
    exact h
  · intro t p u hpair hdec hfound hact
    simp only [Prod.mk.injEq] at hpair
    obtain ⟨htok, herr⟩ := hpair
    subst htok
    subst herr
    have hcur := get_current_user_none db t now p hdec
      (Or.inr ⟨u, hfound, hact⟩)
    exact get_authenticated_user_nouser db f now t f1 hgv hcur
  · intro uid emp rl now0 u hlt hid hfind
    have hdec : jwt_decode (create_access_token uid emp rl now0) now
        = .ok { sub := toString uid, employee_number := emp, role := rl,
                iat := now0, exp := now0 + JWT_EXPIRATION_HOURS * 3600 } := by
      simp only [create_access_token, jwt_decode]
      rw [if_neg (by omega)]
    have hgv2 : get_valid_token
        (save_token (create_access_token uid emp rl now0)) now
        = ((some (create_access_token uid emp rl now0), none),
           save_token (create_access_token uid emp rl now0)) := by
      simp [get_valid_token, load_token, save_token, hdec]
    have hfind2 : (deactivate_user db uid).users.find?
        (fun x => toString x.id == toString uid)
        = some { u with is_active := false } := by
      have hcong : ((fun x => toString x.id == toString uid) ∘
          (fun v => if v.id = uid then { v with is_active := false }
                    else v))
          = (fun x : User => toString x.id == toString uid) := by
        funext v
        by_cases hv : v.id = uid <;> simp [hv]
      simp only [deactivate_user, List.find?_map, hcong, hfind,
        Option.map_some]
      simp [hid]
    have hcur : get_current_user (deactivate_user db uid)
        (some (create_access_token uid emp rl now0)) now = none := by
      apply get_current_user_none _ _ _ _ hdec
      right
      exact ⟨{ u with is_active := false }, hfind2, rfl⟩
    exact get_authenticated_user_nouser (deactivate_user db uid) _ now _ _
      hgv2 hcur


/-- C5 witness: the not-found branch on the empty slot, and the
deactivation scenario — a token issued at time 0 for user id 1, who is then
deactivated, is rejected at time 5 with the slot cleared. -/
theorem resolve_current_spec_witness :
    get_authenticated_user sampleDB emptyFile 0
      = (.error (.authenticationError notFoundMsg), emptyFile)
    ∧ get_authenticated_user (deactivate_user sampleDB 1)
        (save_token (create_access_token 1 "E1" "sales" 0)) 5
      = (.error (.authenticationError userNotFoundMsg),
         clear_token (save_token (create_access_token 1 "E1" "sales" 0))) := by
  constructor
  · exact (resolve_current_spec sampleDB emptyFile 0).1 rfl
  · exact (resolve_current_spec sampleDB emptyFile 5).2.2.2.2.2.2
      1 "E1" "sales" 0 salesUser (by decide) rfl rfl

end EpicEvents
